import Mathlib

/-!
Verification of `homework.py` (Kaya-git/homework_bot): a shallow embedding of
the polling/notification bot and proofs of the claims of the specification.

The embedding models Python values (`PyVal`), the exception taxonomy used by
the program (`PyErr` / `PyErrKind`), the leaf functions `check_tokens`,
`get_api_answer`, `check_response`, `parse_status`, `send_message`, the
notification/dedup block of `main`, one iteration of the polling loop
(`main_cycle`), the multi-cycle loop runner (`run_loop`), and the shared
run-state machine mutated by `main` and `repl` (`applyEv` / `runTrace`).
External effects (the HTTP transport, the Telegram bot, the wall clock) are
passed in as explicit parameters, so every definition is executable.
-/

/-- Python values as they flow through the program: `None`, ints, strings,
lists, and string-keyed dicts (JSON-shaped, which is all the API returns). -/
inductive PyVal where
  | none : PyVal
  | int : Int → PyVal
  | str : String → PyVal
  | list : List PyVal → PyVal
  | dict : List (String × PyVal) → PyVal
deriving Repr

/-- Modelled from the spec: the `exceptions` module imported by
`homework.py` (classes `APIResponseError`, `APIStatusCodeError`,
`YandeksError`, `TelegramError`) is not part of the sources under `src/`.
The spec describes them as distinct error classes — `TelegramError`
(the Notifier failure) being "the one error class in the whole system that
the loop treats as loggable-but-survivable", and the API-client kinds being
distinguishable from each other — so they are modelled as distinct
constructors alongside the built-in Python exception kinds the program
raises (`TypeError`, `KeyError`, `AttributeError`, the `requests` transport
exception, and JSON decode failure). -/
inductive PyErrKind where
  | typeError
  | keyError
  | attributeError
  | requestException
  | jsonDecodeError
  | apiResponseError
  | apiStatusCodeError
  | yandeksError
  | telegramError
deriving DecidableEq, Repr

/-- A raised Python exception: its class, its message, and its `__cause__`
chain (set by `raise ... from error`). -/
inductive PyErr where
  | mk : PyErrKind → String → Option PyErr → PyErr
deriving Repr

def PyErr.kind : PyErr → PyErrKind
  | .mk k _ _ => k

def PyErr.msg : PyErr → String
  | .mk _ m _ => m

def PyErr.cause : PyErr → Option PyErr
  | .mk _ _ c => c

/-- Python truthiness for the values we model (`bool(v)`). -/
def pyTruthy : PyVal → Bool
  | .none => false
  | .int n => n ≠ 0
  | .str s => s ≠ ""
  | .list l => !l.isEmpty
  | .dict d => !d.isEmpty

/-- Python truthiness of an `Optional[str]` (what `os.getenv` returns):
`None` and the empty string are falsy. -/
def pyTruthyStr : Option String → Bool
  | Option.none => false
  | some s => s ≠ ""

/-- `d.get(k)` on an actual Python dict: the value, or `None` if absent. -/
def dictGet (d : List (String × PyVal)) (k : String) : PyVal :=
  match d.find? (fun p => p.1 = k) with
  | some p => p.2
  | Option.none => PyVal.none

/-- `v.get(k)` on an arbitrary value: only dicts have a `.get` attribute;
on every other value Python raises `AttributeError`. -/
def PyVal.get (v : PyVal) (k : String) : Except PyErr PyVal :=
  match v with
  | .dict d => Except.ok (dictGet d k)
  | .list _ => Except.error (PyErr.mk .attributeError
      ("list object has no attribute get, key " ++ k) Option.none)
  | _ => Except.error (PyErr.mk .attributeError
      ("object has no attribute get, key " ++ k) Option.none)

/-- `HOMEWORK_STATUSES`: the fixed three-entry code → sentence table. -/
def HOMEWORK_STATUSES : List (String × String) :=
  [("approved", "Работа проверена: ревьюеру всё понравилось. Ура!"),
   ("reviewing", "Работа взята на проверку ревьюером."),
   ("rejected", "Работа проверена: у ревьюера есть замечания.")]

/-- `check_tokens()`: `all((PRACTICUM_TOKEN, TELEGRAM_TOKEN,
TELEGRAM_CHAT_ID))` — each token is an `os.getenv` result, truthy only when
set and non-empty. -/
def check_tokens (practicum telegramTok chatId : Option String) : Bool :=
  pyTruthyStr practicum && pyTruthyStr telegramTok && pyTruthyStr chatId

/-- One HTTP response as seen through the `requests` library: the numeric
status code, the reason phrase, the raw text body, and the result of
`.json()` (`Option.none` models a body that fails to decode). -/
structure HttpResponse where
  status_code : Nat
  reason : String
  text : String
  jsonBody : Option PyVal
deriving Repr

/-- The outcome of the single outbound `requests.get` call: either a
response object, or a transport-level exception (connection error,
timeout) raised by `requests`. -/
inductive FetchOutcome where
  | response : HttpResponse → FetchOutcome
  | transportError : String → FetchOutcome
deriving Repr

/-- `timestamp = current_timestamp or int(time.time())` — Python `or`
returns the left operand when truthy, otherwise the right. In `main` the
cursor starts as an int and is later re-assigned from
`response.get("current_date")` (written with double quotes here), so it is a
`PyVal` in the embedding. -/
def resolve_timestamp (current_timestamp : PyVal) (now : Int) : PyVal :=
  if pyTruthy current_timestamp then current_timestamp else PyVal.int now

/-- The diagnostic message of `APIStatusCodeError` built in
`get_api_answer` for a non-200 response. -/
def statusCodeMessage (r : HttpResponse) : String :=
  "Неверный ответ сервера: http code = " ++ toString r.status_code ++
    "; reason = " ++ r.reason ++ "; content = " ++ r.text

/-- The body of the `try` block of `get_api_answer` once the outcome of the
request is
known: raise `APIStatusCodeError` on a non-200 status, otherwise decode the
JSON body (a decode failure is an exception from `.json()`). -/
def fetch_try_block (outcome : FetchOutcome) : Except PyErr PyVal :=
  match outcome with
  | .transportError e =>
      Except.error (PyErr.mk .requestException e Option.none)
  | .response r =>
      if r.status_code ≠ 200 then
        Except.error (PyErr.mk .apiStatusCodeError (statusCodeMessage r)
          Option.none)
      else
        match r.jsonBody with
        | some v => Except.ok v
        | Option.none => Except.error (PyErr.mk .jsonDecodeError
            ("could not decode: " ++ r.text) Option.none)

/-- `get_api_answer(current_timestamp)`: resolves the timestamp, issues the
request (`net` is the network, indexed by the `from_date` parameter sent),
and wraps ANY exception of the `try` block — including the
`APIStatusCodeError` raised inside it — into `YandeksError` via
`except Exception as error: raise YandeksError(...) from error`. -/
def get_api_answer (net : PyVal → FetchOutcome) (now : Int)
    (current_timestamp : PyVal) : Except PyErr PyVal :=
  match fetch_try_block (net (resolve_timestamp current_timestamp now)) with
  | Except.ok v => Except.ok v
  | Except.error e => Except.error
      (PyErr.mk .yandeksError "Ошибка подключения к Яндекс Практикуму"
        (some e))

/-- `check_response(response)`: strict structural validation of the payload;
returns the `homeworks` list (empty list included) or raises. -/
def check_response (response : PyVal) : Except PyErr (List PyVal) :=
  match response with
  | PyVal.dict d =>
      if dictGet d "homeworks" matches PyVal.none then
        Except.error (PyErr.mk .keyError
          "Словарь ответа API не содержит ключей homeworks и/или current_date"
          Option.none)
      else if dictGet d "current_date" matches PyVal.none then
        Except.error (PyErr.mk .keyError
          "Словарь ответа API не содержит ключей homeworks и/или current_date"
          Option.none)
      else
        match dictGet d "homeworks" with
        | PyVal.list l =>
            if l.isEmpty then Except.ok [] else Except.ok l
        | _ => Except.error (PyErr.mk .typeError
            "Ключ homeworks в ответе API не содержит списка" Option.none)
  | _ => Except.error (PyErr.mk .typeError
      "Ответ API не содержит словаря с данными" Option.none)

/-- `parse_status(homework)`: note the argument is whatever `main` passes —
the `.get` attribute lookups raise `AttributeError` unless it is a dict. -/
def parse_status (homework : PyVal) : Except PyErr String :=
  match homework.get "homework_name" with
  | Except.error e => Except.error e
  | Except.ok nameVal =>
    if nameVal matches PyVal.none then
      Except.error (PyErr.mk .keyError
        "Словарь ответа API не содержит ключа homework_name" Option.none)
    else
      match homework.get "status" with
      | Except.error e => Except.error e
      | Except.ok statusVal =>
        if statusVal matches PyVal.none then
          Except.error (PyErr.mk .keyError
            "Словарь ответа API не содержит ключа status" Option.none)
        else
          match statusVal with
          | PyVal.str homework_status =>
            match (HOMEWORK_STATUSES.find? (fun p => p.1 = homework_status)) with
            | some p =>
                match nameVal with
                | PyVal.str homework_name =>
                    Except.ok ("Изменился статус проверки работы \"" ++
                      homework_name ++ "\". " ++ p.2)
                | _ => Except.ok ("Изменился статус проверки работы \"" ++
                      "<non-str name>" ++ "\". " ++ p.2)
            | Option.none => Except.error (PyErr.mk .apiResponseError
                "Статус ответа не известен" Option.none)
          | _ => Except.error (PyErr.mk .apiResponseError
              "Статус ответа не известен" Option.none)

/-- `send_message(bot, message)`: delegates to the bot channel (`deliver`,
the external `bot.send_message` with the fixed chat id applied) and wraps
any failure into `TelegramError` via `raise TelegramError(...) from error`. -/
def send_message (deliver : String → Except PyErr Unit) (message : String) :
    Except PyErr Unit :=
  match deliver message with
  | Except.ok _ => Except.ok ()
  | Except.error e => Except.error
      (PyErr.mk .telegramError
        ("Ошибка отправки сообщения в телеграм: " ++ e.msg) (some e))

/-- Outcome of the notification block: the value of `status_old` after the
block, whether `send_message` was invoked, and the exception it raised if
delivery failed (which aborts the rest of the `try` body). -/
structure NotifyResult where
  status_old : Option String
  attempted : Bool
  raised : Option PyErr
deriving Repr

/-- Lines 174–176 of `main`:
`if status != status_old: send_message(bot, status); status_old = status`.
`status_old` starts as Python `None`, hence `Option String`; a string never
equals `None`, so the first parsed status always differs. If `send_message`
raises, the assignment to `status_old` is skipped. -/
def notify_step (deliver : String → Except PyErr Unit) (status : String)
    (status_old : Option String) : NotifyResult :=
  if some status == status_old then
    ⟨status_old, false, Option.none⟩
  else
    match send_message deliver status with
    | Except.ok _ => ⟨some status, true, Option.none⟩
    | Except.error e => ⟨status_old, true, some e⟩

/-- The loop-carried state of `main`: the poll cursor
(`current_timestamp`, a `PyVal` because it is re-assigned from the
`current_date` field of the response) and the dedup register (`status_old`). -/
structure CycleState where
  current_timestamp : PyVal
  status_old : Option String
deriving Repr

/-- The external world of one cycle: the network, the wall clock at the
moment `int(time.time())` would be read, and the bot delivery channel. -/
structure CycleInput where
  net : PyVal → FetchOutcome
  now : Int
  deliver : String → Except PyErr Unit

/-- The `try` body of one loop iteration (lines 171–177 of `main`): fetch,
validate, parse — `parse_status` is applied to `homework`, the WHOLE list
returned by `check_response` — then the notification block, then the cursor
re-assignment of `current_timestamp` from the `current_date` field. Returns
the new state and whether a message was delivered, or the first exception
raised. -/
def cycle_try_block (inp : CycleInput) (st : CycleState) :
    Except PyErr (CycleState × Bool) :=
  match get_api_answer inp.net inp.now st.current_timestamp with
  | Except.error e => Except.error e
  | Except.ok response =>
    match check_response response with
    | Except.error e => Except.error e
    | Except.ok homework =>
      match parse_status (PyVal.list homework) with
      | Except.error e => Except.error e
      | Except.ok status =>
        let r := notify_step inp.deliver status st.status_old
        match r.raised with
        | some e => Except.error e
        | Option.none =>
          match response.get "current_date" with
          | Except.error e => Except.error e
          | Except.ok cd => Except.ok (⟨cd, r.status_old⟩, r.attempted)

/-- The result of one iteration of the `while True` loop of `main`. -/
inductive CycleResult where
  | exited (st : CycleState)
  | continued (st : CycleState) (delivered : Bool) (caughtLogged : Option PyErr)
  | crashed (e : PyErr) (st : CycleState)
deriving Repr

/-- One iteration of the loop of `main` (lines 165–181): the loop-top stop check
under the lock, then the `try` body; the sole handler is
`except TelegramError` (logged, loop continues with the state unchanged —
line 177 was skipped by the exception); any other exception propagates out
of `main` and terminates the loop. -/
def main_cycle (stopped : Bool) (inp : CycleInput) (st : CycleState) :
    CycleResult :=
  if stopped then CycleResult.exited st
  else
    match cycle_try_block inp st with
    | Except.ok (st2, delivered) => CycleResult.continued st2 delivered Option.none
    | Except.error e =>
        if e.kind = PyErrKind.telegramError then
          CycleResult.continued st false (some e)
        else
          CycleResult.crashed e st

/-- The overall outcome of running the loop over a finite schedule of
cycles; each schedule entry is the stop flag the loop-top check observes
for that cycle together with the external world of that cycle. -/
inductive RunOutcome where
  | exited (st : CycleState)
  | crashed (e : PyErr) (st : CycleState)
  | ranOut (st : CycleState)
deriving Repr

/-- The `while True` loop of `main` over a finite schedule. -/
def run_loop : List (Bool × CycleInput) → CycleState → RunOutcome
  | [], st => RunOutcome.ranOut st
  | (stopFlag, inp) :: rest, st =>
      match main_cycle stopFlag inp st with
      | CycleResult.exited st2 => RunOutcome.exited st2
      | CycleResult.crashed e st2 => RunOutcome.crashed e st2
      | CycleResult.continued st2 _ _ => run_loop rest st2

/-- The `State` enum of the program (named `RunState` in the spec). -/
inductive State where
  | INITIAL
  | RUNNING
  | STOPPED
deriving DecidableEq, Repr

/-- The two writes ever performed on the shared `state` variable, each under
`state_lock`: `main` lines 157–159 assign `State.RUNNING` unconditionally;
`repl` lines 190–191 assign `State.STOPPED` unconditionally. The lock makes
each write atomic, so a concurrent execution is a linear interleaving of
these events. -/
inductive Ev where
  | initRunning
  | requestStop
deriving DecidableEq, Repr

/-- Effect of one (lock-protected, hence atomic) write on the shared state:
both writes are plain assignments that ignore the current value. -/
def applyEv : State → Ev → State
  | _, Ev.initRunning => State.RUNNING
  | _, Ev.requestStop => State.STOPPED

/-- The shared state after a linear interleaving of the writes. -/
def runTrace (s : State) (evs : List Ev) : State :=
  evs.foldl applyEv s

/-- The fatal startup message logged and passed to `sys.exit`. -/
def startup_error_message : String :=
  "Отсутсвтуют обязательные переменные окружения: PRACTICUM_TOKEN, " ++
    "TELEGRAM_TOKEN, TELEGRAM_CHAT_ID. Программа принудительно остановлена"

/-- What `main` does before its loop: either a fatal exit or entry into the
loop with the shared state set to a given value. -/
inductive StartupResult where
  | fatalExit (code : Nat) (message : String)
  | entered (runState : State)
deriving Repr

/-- Lines 148–159 of `main`: if `check_tokens()` fails, log critical and
`sys.exit(error_message)` — `sys.exit` with a non-`None`, non-int argument
exits the process with status 1; otherwise set the shared state to
`RUNNING` and proceed into the loop. -/
def main_startup (practicum telegramTok chatId : Option String) :
    StartupResult :=
  if !check_tokens practicum telegramTok chatId then
    StartupResult.fatalExit 1 startup_error_message
  else
    StartupResult.entered State.RUNNING

/-! Concrete fixtures used by the theorems below. -/

/-- A valid homework record. -/
def recA : PyVal :=
  PyVal.dict [("homework_name", PyVal.str "hw1"), ("status", PyVal.str "approved")]

/-- Scenario A payload: one approved homework, `current_date` 1000. -/
def respA : PyVal :=
  PyVal.dict [("homeworks", PyVal.list [recA]), ("current_date", PyVal.int 1000)]

/-- Scenario B payload: empty homework list, `current_date` 1000. -/
def respB : PyVal :=
  PyVal.dict [("homeworks", PyVal.list []), ("current_date", PyVal.int 1000)]

/-- A network that always answers 200 with the given JSON body. -/
def okNet (body : PyVal) : PyVal → FetchOutcome :=
  fun _ => FetchOutcome.response ⟨200, "OK", "raw", some body⟩

/-- The HTTP 500 response of Scenario C. -/
def resp500 : HttpResponse := ⟨500, "Internal Server Error", "oops", Option.none⟩

/-- A network that always answers HTTP 500. -/
def net500 : PyVal → FetchOutcome := fun _ => FetchOutcome.response resp500

/-- A network whose transport always fails (`requests` raises). -/
def netDown : PyVal → FetchOutcome := fun _ => FetchOutcome.transportError "connection refused"

/-- A bot channel that always delivers. -/
def deliverOk : String → Except PyErr Unit := fun _ => Except.ok ()

/-- A loop state with an integer cursor and nothing notified yet. -/
def st0 : CycleState := ⟨PyVal.int 5, Option.none⟩

/-- Cycle input: network down, clock 99, bot fine. -/
def inpDown : CycleInput := ⟨netDown, 99, deliverOk⟩

/-- Cycle input: Scenario A payload, clock 99, bot fine. -/
def inpA : CycleInput := ⟨okNet respA, 99, deliverOk⟩

/-- Cycle input: Scenario B payload, clock 99, bot fine. -/
def inpB : CycleInput := ⟨okNet respB, 99, deliverOk⟩

/-- The `YandeksError` that reaches the loop when the transport fails. -/
def yandeksDownErr : PyErr :=
  PyErr.mk .yandeksError "Ошибка подключения к Яндекс Практикуму"
    (some (PyErr.mk .requestException "connection refused" Option.none))

/-- The `AttributeError` raised when `parse_status` receives a list. -/
def attrErrHN : PyErr :=
  PyErr.mk .attributeError "list object has no attribute get, key homework_name"
    Option.none

/-! Helper lemmas about which exception kinds each stage can raise. -/

/-- Every error of `get_api_answer` is a `YandeksError`. -/
lemma get_api_answer_error_kind (net : PyVal → FetchOutcome) (now : Int)
    (ct : PyVal) (e : PyErr)
    (h : get_api_answer net now ct = Except.error e) :
    e.kind = PyErrKind.yandeksError := by
  unfold get_api_answer at h
  split at h
  · exact absurd h (by simp)
  · simp only [Except.error.injEq] at h
    subst h
    rfl

/-- Every error of `check_response` is a `KeyError` or a `TypeError`. -/
lemma check_response_error_kind (r : PyVal) (e : PyErr)
    (h : check_response r = Except.error e) :
    e.kind = PyErrKind.keyError ∨ e.kind = PyErrKind.typeError := by
  unfold check_response at h
  split at h
  · split at h
    · injection h with h2; subst h2; exact Or.inl rfl
    · split at h
      · injection h with h2; subst h2; exact Or.inl rfl
      · split at h
        · split at h <;> exact absurd h (by simp)
        · injection h with h2; subst h2; exact Or.inr rfl
  · injection h with h2; subst h2; exact Or.inr rfl

/-- Every error of `parse_status` is an `AttributeError`, a `KeyError`, or
an `APIResponseError` — never a `TelegramError`. -/
lemma parse_status_error_kind (v : PyVal) (e : PyErr)
    (h : parse_status v = Except.error e) :
    e.kind ≠ PyErrKind.telegramError := by
  cases v with
  | dict d =>
      simp only [parse_status, PyVal.get] at h
      split at h
      · injection h with h2; subst h2; exact by decide
      · split at h
        · injection h with h2; subst h2; exact by decide
        · split at h
          · split at h
            · split at h <;> exact absurd h (by simp)
            · injection h with h2; subst h2; exact by decide
          · injection h with h2; subst h2; exact by decide
  | list l =>
      simp only [parse_status, PyVal.get] at h
      injection h with h2; subst h2; exact by decide
  | none =>
      simp only [parse_status, PyVal.get] at h
      injection h with h2; subst h2; exact by decide
  | int n =>
      simp only [parse_status, PyVal.get] at h
      injection h with h2; subst h2; exact by decide
  | str sv =>
      simp only [parse_status, PyVal.get] at h
      injection h with h2; subst h2; exact by decide

/-- C1 (counterexample): a cycle in which fetching raises a non-Notifier
error (here a transport failure wrapped as `YandeksError`) is NOT caught:
the loop crashes with the propagated error instead of continuing — the
`except TelegramError` handler does not match it. -/
theorem C1_counterexample :
    main_cycle false inpDown st0 = CycleResult.crashed yandeksDownErr st0 ∧
    yandeksDownErr.kind ≠ PyErrKind.telegramError :=
  ⟨rfl, by decide⟩

/-- C1 (amended): errors raised by fetching, validating, or parsing — all of
non-`TelegramError` kind — propagate uncaught and terminate the loop with
the cycle state (cursor included) unchanged; only a `TelegramError` raised
by the notification step is caught, logged, and survived with the state
unchanged. -/
theorem C1_cycle_error_policy (inp : CycleInput) (st : CycleState) (e : PyErr) :
    (get_api_answer inp.net inp.now st.current_timestamp = Except.error e →
      main_cycle false inp st = CycleResult.crashed e st) ∧
    (∀ response,
      get_api_answer inp.net inp.now st.current_timestamp = Except.ok response →
      check_response response = Except.error e →
      main_cycle false inp st = CycleResult.crashed e st) ∧
    (∀ response hw,
      get_api_answer inp.net inp.now st.current_timestamp = Except.ok response →
      check_response response = Except.ok hw →
      parse_status (PyVal.list hw) = Except.error e →
      main_cycle false inp st = CycleResult.crashed e st) ∧
    (∀ e2 st2, main_cycle false inp st = CycleResult.crashed e2 st2 →
      e2.kind ≠ PyErrKind.telegramError ∧ st2 = st) ∧
    (cycle_try_block inp st = Except.error e →
      e.kind = PyErrKind.telegramError →
      main_cycle false inp st = CycleResult.continued st false (some e)) := by
  refine ⟨?_, ?_, ?_, ?_, ?_⟩
  · intro h
    have hk := get_api_answer_error_kind inp.net inp.now st.current_timestamp e h
    simp [main_cycle, cycle_try_block, h, hk]
  · intro response hresp hcheck
    have hk := check_response_error_kind response e hcheck
    rcases hk with hk | hk <;> simp [main_cycle, cycle_try_block, hresp, hcheck, hk]
  · intro response hw hresp hcheck hpar
    have hk := parse_status_error_kind (PyVal.list hw) e hpar
    simp [main_cycle, cycle_try_block, hresp, hcheck, hpar, hk]
  · intro e2 st2 h
    unfold main_cycle at h
    rw [if_neg Bool.false_ne_true] at h
    split at h
    · simp at h
    · split at h
      · simp at h
      · rename_i hne
        injection h with h1 h2
        subst h1
        subst h2
        exact ⟨hne, rfl⟩
  · intro h hk
    unfold main_cycle
    rw [if_neg Bool.false_ne_true, h]
    simp [hk]

/-- C1 (witness): the transport-failure cycle, through the theorem. -/
theorem C1_cycle_error_policy_witness :
    main_cycle false inpDown st0 = CycleResult.crashed yandeksDownErr st0 :=
  (C1_cycle_error_policy inpDown st0 yandeksDownErr).1 rfl

/-- C2 (code bug, evaluated): on the Scenario A payload, validation returns
the non-empty record list, but `main` hands `parse_status` the WHOLE list
(`status = parse_status(homework)`), whose `.get` lookup raises
`AttributeError`; the exception is not a `TelegramError`, so the cycle
crashes with no notification. Had the first record been passed (as the
claim and spec state), parsing would have produced the message embedding
`hw1` and the approved-status sentence. -/
theorem C2_parse_called_on_list_crashes :
    check_response respA = Except.ok [recA] ∧
    parse_status (PyVal.list [recA]) = Except.error attrErrHN ∧
    parse_status recA = Except.ok
      ("Изменился статус проверки работы \"hw1\". " ++
        "Работа проверена: ревьюеру всё понравилось. Ура!") ∧
    main_cycle false inpA st0 = CycleResult.crashed attrErrHN st0 :=
  ⟨rfl, rfl, rfl, rfl⟩

/-- C3 (counterexample): the unconditional startup write
`state = State.RUNNING` of `main` interleaved AFTER the stop request
overwrites `STOPPED` with `RUNNING` — the state does transition away from
`STOPPED`. -/
theorem C3_counterexample :
    runTrace State.INITIAL [Ev.requestStop] = State.STOPPED ∧
    runTrace State.INITIAL [Ev.requestStop, Ev.initRunning] = State.RUNNING := by
  decide

/-- Once the state is `STOPPED`, it stays `STOPPED` under any further writes
that do not include the startup write. -/
lemma runTrace_stopped_no_init (evs : List Ev) (h : Ev.initRunning ∉ evs) :
    runTrace State.STOPPED evs = State.STOPPED := by
  induction evs with
  | nil => rfl
  | cons ev rest ih =>
      cases ev with
      | initRunning => exact absurd (List.mem_cons_self _ _) h
      | requestStop =>
          have : runTrace State.STOPPED (Ev.requestStop :: rest) =
              runTrace State.STOPPED rest := rfl
          rw [this]
          exact ih (fun hm => h (List.mem_cons_of_mem _ hm))

/-- C3 (amended): a stop request moves the state to `STOPPED`, and the state
never transitions away afterward PROVIDED the one-time startup write of
`RUNNING` does not occur after the stop request; if it does, it overwrites
`STOPPED` (see the counterexample). -/
theorem C3_stop_permanent_after_init (pre post : List Ev)
    (h : Ev.initRunning ∉ post) :
    runTrace State.INITIAL (pre ++ Ev.requestStop :: post) = State.STOPPED := by
  have happ : runTrace State.INITIAL (pre ++ Ev.requestStop :: post) =
      runTrace (runTrace State.INITIAL pre) (Ev.requestStop :: post) :=
    List.foldl_append _ _ _ _
  rw [happ]
  have hstep : runTrace (runTrace State.INITIAL pre) (Ev.requestStop :: post) =
      runTrace State.STOPPED post := rfl
  rw [hstep]
  exact runTrace_stopped_no_init post h

/-- C3 (witness): startup, then a stop request, then one further write that
is not the startup write — the state stays `STOPPED`. -/
theorem C3_stop_permanent_after_init_witness :
    runTrace State.INITIAL
      ([Ev.initRunning] ++ Ev.requestStop :: [Ev.requestStop]) = State.STOPPED :=
  C3_stop_permanent_after_init [Ev.initRunning] [Ev.requestStop] (by decide)

/-- C4 (counterexample): for an HTTP 500 response the error the caller of
`get_api_answer` receives is of kind `YandeksError` — not
`APIStatusCodeError` — and a transport failure yields the very same outer
kind, so the kind reaching the caller does not distinguish the two. -/
theorem C4_counterexample :
    (∃ c, get_api_answer net500 99 (PyVal.int 5) = Except.error
      (PyErr.mk PyErrKind.yandeksError
        "Ошибка подключения к Яндекс Практикуму" (some c))) ∧
    (∃ c, get_api_answer netDown 99 (PyVal.int 5) = Except.error
      (PyErr.mk PyErrKind.yandeksError
        "Ошибка подключения к Яндекс Практикуму" (some c))) ∧
    PyErrKind.yandeksError ≠ PyErrKind.apiStatusCodeError :=
  ⟨⟨PyErr.mk .apiStatusCodeError (statusCodeMessage resp500) Option.none, rfl⟩,
   ⟨PyErr.mk .requestException "connection refused" Option.none, rfl⟩,
   by decide⟩

/-- C4 (amended): for every non-200 response, `get_api_answer` raises
`APIStatusCodeError` carrying the status code, reason phrase, and raw body
(via `statusCodeMessage`), but the surrounding `except Exception` catches it
and re-raises `YandeksError` from it: the caller receives a `YandeksError`
whose cause is that `APIStatusCodeError` — the same outer kind as for a
connection error. -/
theorem C4_non200_wrapped_yandeks (net : PyVal → FetchOutcome) (now : Int)
    (ct : PyVal) (r : HttpResponse)
    (hnet : net (resolve_timestamp ct now) = FetchOutcome.response r)
    (hst : r.status_code ≠ 200) :
    get_api_answer net now ct = Except.error
      (PyErr.mk PyErrKind.yandeksError "Ошибка подключения к Яндекс Практикуму"
        (some (PyErr.mk PyErrKind.apiStatusCodeError (statusCodeMessage r)
          Option.none))) := by
  unfold get_api_answer fetch_try_block
  rw [hnet]
  simp [hst]

/-- C4 (witness): the HTTP 500 network, through the theorem. -/
theorem C4_non200_wrapped_yandeks_witness :
    get_api_answer net500 99 (PyVal.int 5) = Except.error
      (PyErr.mk PyErrKind.yandeksError "Ошибка подключения к Яндекс Практикуму"
        (some (PyErr.mk PyErrKind.apiStatusCodeError (statusCodeMessage resp500)
          Option.none))) :=
  C4_non200_wrapped_yandeks net500 99 (PyVal.int 5) resp500 rfl (by decide)

/-- C5 (code bug, evaluated): on the Scenario B payload (empty `homeworks`,
`current_date` 1000) validation does return the empty list without error,
but the cycle then calls `parse_status` on that empty LIST, whose `.get`
lookup raises `AttributeError`; the exception is not a `TelegramError`, so
the cycle crashes — no notification, but also no cursor advance to 1000 and
the loop terminates, contrary to the claim. -/
theorem C5_empty_homeworks_cycle_crashes :
    check_response respB = Except.ok [] ∧
    parse_status (PyVal.list []) = Except.error attrErrHN ∧
    main_cycle false inpB st0 = CycleResult.crashed attrErrHN st0 :=
  ⟨rfl, rfl, rfl⟩

/-- C6: the notification block of `main` (lines 174–176, reached through
`cycle_try_block`) sends if and only if the freshly parsed status differs
from `status_old`; a successful send sets `status_old` to the sent message,
a failed send leaves it unchanged, so a later cycle parsing the same status
attempts delivery again. -/
theorem C6_dedup_invariant (deliver : String → Except PyErr Unit)
    (status : String) (status_old : Option String) :
    ((notify_step deliver status status_old).attempted =
      (some status != status_old)) ∧
    (deliver status = Except.ok () →
      (notify_step deliver status status_old).status_old =
        (if some status == status_old then status_old else some status)) ∧
    (∀ e, deliver status = Except.error e →
      (notify_step deliver status status_old).status_old = status_old) ∧
    (∀ e (deliver2 : String → Except PyErr Unit),
      deliver status = Except.error e →
      deliver2 status = Except.ok () →
      (some status != status_old) = true →
      (notify_step deliver2 status
        ((notify_step deliver status status_old).status_old)).attempted =
        true) := by
  refine ⟨?_, ?_, ?_, ?_⟩
  · unfold notify_step send_message
    split
    · rename_i hq
      simp [bne, hq]
    · rename_i hq
      cases deliver status <;> simp [bne, hq]
  · intro hok
    unfold notify_step send_message
    rw [hok]
    split <;> rfl
  · intro e herr
    unfold notify_step send_message
    rw [herr]
    split <;> rfl
  · intro e deliver2 herr _ hdiff
    have hold : (notify_step deliver status status_old).status_old =
        status_old := by
      unfold notify_step send_message
      rw [herr]
      split <;> rfl
    rw [hold]
    unfold notify_step send_message
    have hne : ¬(some status == status_old) = true := by
      simp only [bne] at hdiff
      exact fun hc => by rw [hc] at hdiff; exact absurd hdiff (by decide)
    rw [if_neg hne]
    cases deliver2 status <;> rfl

/-- C6 (witness): a first status, nothing notified yet, delivery fine. -/
theorem C6_dedup_invariant_witness :
    (notify_step deliverOk "msg" Option.none).status_old =
      (if some "msg" == (Option.none : Option String) then Option.none
        else some "msg") :=
  (C6_dedup_invariant deliverOk "msg" Option.none).2.1 rfl

/-- C7: a cycle whose loop-top check observes `STOPPED` exits cleanly with
the state untouched; the result does not depend on the external world (no
further network call or delivery can influence it), and the multi-cycle
runner exits at that cycle, ignoring every remaining scheduled cycle. -/
theorem C7_stop_observed_next_cycle (inp inp2 : CycleInput) (st : CycleState)
    (rest : List (Bool × CycleInput)) :
    main_cycle true inp st = CycleResult.exited st ∧
    main_cycle true inp st = main_cycle true inp2 st ∧
    run_loop ((true, inp) :: rest) st = RunOutcome.exited st :=
  ⟨rfl, rfl, rfl⟩

/-- C8: if any of the three required configuration values is absent
(`os.getenv` returned `None`), `main` logs critical and calls
`sys.exit(error_message)` — a nonzero (status 1) exit — and never produces
the branch that sets the shared state to `RUNNING` and enters the loop. -/
theorem C8_missing_token_fatal (p t c : Option String)
    (h : p = Option.none ∨ t = Option.none ∨ c = Option.none) :
    main_startup p t c = StartupResult.fatalExit 1 startup_error_message ∧
    (1 : Nat) ≠ 0 ∧
    (∀ s, main_startup p t c ≠ StartupResult.entered s) := by
  have hck : check_tokens p t c = false := by
    rcases h with h | h | h <;> subst h <;> simp [check_tokens, pyTruthyStr]
  refine ⟨by simp [main_startup, hck], by decide, ?_⟩
  intro s hcontra
  rw [main_startup, hck] at hcontra
  simp at hcontra

/-- C8 (witness): the upstream token unset, through the theorem. -/
theorem C8_missing_token_fatal_witness :
    main_startup Option.none (some "t") (some "c") =
      StartupResult.fatalExit 1 startup_error_message :=
  (C8_missing_token_fatal Option.none (some "t") (some "c") (Or.inl rfl)).1

/-- C9: Python truthiness makes `check_tokens` treat an empty-string
environment variable exactly like an absent one: if any of the three is
unset or empty, `check_tokens` is `false` and startup aborts fatally. -/
theorem C9_empty_token_fatal (p t c : Option String)
    (h : p = Option.none ∨ p = some "" ∨ t = Option.none ∨ t = some "" ∨
      c = Option.none ∨ c = some "") :
    check_tokens p t c = false ∧
    main_startup p t c = StartupResult.fatalExit 1 startup_error_message := by
  have hck : check_tokens p t c = false := by
    rcases h with h | h | h | h | h | h <;> subst h <;>
      simp [check_tokens, pyTruthyStr]
  exact ⟨hck, by simp [main_startup, hck]⟩

/-- C9 (witness): the upstream token set to the empty string. -/
theorem C9_empty_token_fatal_witness :
    check_tokens (some "") (some "t") (some "c") = false :=
  (C9_empty_token_fatal (some "") (some "t") (some "c")
    (Or.inr (Or.inl rfl))).1

/-- C10: the `from_date` parameter is `current_timestamp or int(time.time())`
— the cursor itself when it is a truthy (nonzero) integer, the current
wall-clock time when the cursor is `None` or `0`; and `get_api_answer`
probes the network only at that resolved value. -/
theorem C10_from_date_fallback (net : PyVal → FetchOutcome) (now : Int)
    (ct : PyVal) (n : Int) :
    (ct = PyVal.int n → n ≠ 0 → resolve_timestamp ct now = PyVal.int n) ∧
    ((ct = PyVal.none ∨ ct = PyVal.int 0) →
      resolve_timestamp ct now = PyVal.int now) ∧
    (∀ net2 : PyVal → FetchOutcome,
      net (resolve_timestamp ct now) = net2 (resolve_timestamp ct now) →
      get_api_answer net now ct = get_api_answer net2 now ct) := by
  refine ⟨?_, ?_, ?_⟩
  · intro hct hn
    subst hct
    simp [resolve_timestamp, pyTruthy, hn]
  · intro hct
    rcases hct with h | h <;> subst h <;> simp [resolve_timestamp, pyTruthy]
  · intro net2 hnet
    unfold get_api_answer
    rw [hnet]

/-- C10 (witness): nonzero cursor kept; `None` and `0` fall back to now. -/
theorem C10_from_date_fallback_witness :
    resolve_timestamp (PyVal.int 7) 42 = PyVal.int 7 ∧
    resolve_timestamp PyVal.none 42 = PyVal.int 42 ∧
    resolve_timestamp (PyVal.int 0) 42 = PyVal.int 42 :=
  ⟨(C10_from_date_fallback netDown 42 (PyVal.int 7) 7).1 rfl (by decide),
   (C10_from_date_fallback netDown 42 PyVal.none 7).2.1 (Or.inl rfl),
   (C10_from_date_fallback netDown 42 (PyVal.int 0) 7).2.1 (Or.inr rfl)⟩
